import Mathlib

/-!
Verification of the documentation build configuration (`docs/conf.py`).

The configuration file is a straight-line sequence of assignments of
literal values to module-level names.  We embed it as a list of
(name, value) assignment statements executed over a namespace, and model
the host documentation tool's read of the configuration as a fallible
extraction of the expected fields into a `BuildConfiguration` record.
-/

/-- A Python literal value appearing in the configuration file:
    a string literal or a list of values. -/
inductive PyValue where
  | str (s : String)
  | list (xs : List PyValue)
deriving Repr

/-- A module namespace: names bound to values, most recent binding first. -/
abbrev PyNamespace := List (String × PyValue)

/-- Executing an assignment statement `k = v` binds `k` to `v`,
    shadowing any earlier binding of `k`. -/
def assign (ns : PyNamespace) (k : String) (v : PyValue) : PyNamespace :=
  (k, v) :: ns

/-- Look up a name in the namespace (latest binding wins). -/
def lookupName (ns : PyNamespace) (k : String) : Option PyValue :=
  (ns.find? (fun p => p.1 == k)).map Prod.snd

/-- The assignment statements of `docs/conf.py`, in source order. -/
def confStatements : List (String × PyValue) :=
  [ ("project", .str "herkos"),
    ("copyright", .str "2026, Arnaud Riess"),
    ("author", .str "Arnaud Riess"),
    ("release", .str "0.1.0"),
    ("extensions", .list [.str "myst_parser", .str "sphinx_needs"]),
    ("myst_enable_extensions", .list [.str "colon_fence"]),
    ("templates_path", .list [.str "_templates"]),
    ("exclude_patterns", .list [.str "_build", .str "Thumbs.db", .str ".DS_Store"]),
    ("needs_from_toml", .str "ubproject.toml"),
    ("html_theme", .str "alabaster"),
    ("html_static_path", .list [.str "_static"]) ]

/-- Execute the module: run every assignment in order over the empty
    namespace. -/
def runModule (stmts : List (String × PyValue)) : PyNamespace :=
  stmts.foldl (fun ns kv => assign ns kv.1 kv.2) []

/-- The Build Configuration record as read by the host tool. -/
structure BuildConfiguration where
  project : String
  copyright : String
  author : String
  release : String
  extensions : List String
  myst_enable_extensions : List String
  templates_path : List String
  exclude_patterns : List String
  needs_from_toml : String
  html_theme : String
  html_static_path : List String
deriving DecidableEq, Repr

/-- Interpret a value as a string, failing on a list. -/
def asStr : PyValue → Option String
  | .str s => some s
  | .list _ => none

/-- Interpret a value as a list of strings, failing otherwise. -/
def asStrList : PyValue → Option (List String)
  | .str _ => none
  | .list xs => xs.mapM asStr

/-- The host tool's extraction of the Build Configuration record from a
    module namespace.  Fails if a field is missing or has the wrong shape. -/
def getConfig (ns : PyNamespace) : Option BuildConfiguration := do
  let project ← lookupName ns "project" >>= asStr
  let copyright ← lookupName ns "copyright" >>= asStr
  let author ← lookupName ns "author" >>= asStr
  let release ← lookupName ns "release" >>= asStr
  let extensions ← lookupName ns "extensions" >>= asStrList
  let myst ← lookupName ns "myst_enable_extensions" >>= asStrList
  let templates ← lookupName ns "templates_path" >>= asStrList
  let excludes ← lookupName ns "exclude_patterns" >>= asStrList
  let toml ← lookupName ns "needs_from_toml" >>= asStr
  let theme ← lookupName ns "html_theme" >>= asStr
  let staticPaths ← lookupName ns "html_static_path" >>= asStrList
  pure { project := project, copyright := copyright, author := author,
         release := release, extensions := extensions,
         myst_enable_extensions := myst, templates_path := templates,
         exclude_patterns := excludes, needs_from_toml := toml,
         html_theme := theme, html_static_path := staticPaths }

/-- One read of the configuration by the host tool.  The argument is the
    index of the read (first read, second read, ...); the configuration
    has no hidden state, so the index cannot influence the result. -/
def readConfig (_readIndex : Nat) : Option BuildConfiguration :=
  getConfig (runModule confStatements)

/-- The fully populated record the configuration file denotes. -/
def herkosConfig : BuildConfiguration :=
  { project := "herkos",
    copyright := "2026, Arnaud Riess",
    author := "Arnaud Riess",
    release := "0.1.0",
    extensions := ["myst_parser", "sphinx_needs"],
    myst_enable_extensions := ["colon_fence"],
    templates_path := ["_templates"],
    exclude_patterns := ["_build", "Thumbs.db", ".DS_Store"],
    needs_from_toml := "ubproject.toml",
    html_theme := "alabaster",
    html_static_path := ["_static"] }

/-- Evaluating the module and extracting the record yields exactly
    `herkosConfig`, on every read. -/
theorem readConfig_eq (i : Nat) : readConfig i = some herkosConfig := rfl

/-- C1: The Build Configuration record's enabled-extensions field is
    exactly the two-element ordered sequence
    ["myst_parser", "sphinx_needs"], in that order, on every read. -/
theorem extensions_exact (i : Nat) :
    (readConfig i).map BuildConfiguration.extensions =
      some ["myst_parser", "sphinx_needs"] := rfl

/-- C2: The Build Configuration record's exclude-patterns field contains
    exactly the three literal patterns "_build", "Thumbs.db" and
    ".DS_Store", and no others, on every read. -/
theorem exclude_patterns_exact (i : Nat) :
    (readConfig i).map BuildConfiguration.exclude_patterns =
      some ["_build", "Thumbs.db", ".DS_Store"] := rfl

/-- C3: The Build Configuration record's external settings reference
    field equals the literal path string "ubproject.toml", on every read. -/
theorem needs_from_toml_exact (i : Nat) :
    (readConfig i).map BuildConfiguration.needs_from_toml =
      some "ubproject.toml" := rfl

/-- C4: The Build Configuration record's theme-name field equals the
    literal string "alabaster" and its release-version field equals the
    literal string "0.1.0", on every read. -/
theorem theme_and_release_exact (i : Nat) :
    (readConfig i).map BuildConfiguration.html_theme = some "alabaster" ∧
    (readConfig i).map BuildConfiguration.release = some "0.1.0" :=
  ⟨rfl, rfl⟩

/-- C5: Reading the configuration is deterministic: any two reads yield
    identical records, field for field — there is no hidden mutable
    state influencing the result. -/
theorem readConfig_deterministic (i j : Nat) : readConfig i = readConfig j := rfl

/-- C6: The Build Configuration record's project-name field is a
    non-empty string, on every read. -/
theorem project_nonempty (i : Nat) :
    ∃ cfg, readConfig i = some cfg ∧ cfg.project ≠ "" :=
  ⟨herkosConfig, rfl, by decide⟩

/-- C7: Constructing and reading the Build Configuration record never
    raises an error: on every read the fallible extraction succeeds
    (its error branch — the `none` result of `getConfig` — is
    unreachable), producing the fully populated record. -/
theorem readConfig_total (i : Nat) :
    (readConfig i).isSome = true ∧ readConfig i = some herkosConfig :=
  ⟨rfl, rfl⟩

/-- C8: The declared exclude patterns are pairwise distinct: no
    duplicate pattern occurs in the collection, on every read. -/
theorem exclude_patterns_nodup (i : Nat) :
    ∃ cfg, readConfig i = some cfg ∧ cfg.exclude_patterns.Nodup :=
  ⟨herkosConfig, rfl, by decide⟩

/-- C9: The Markdown sub-extensions field of the Build Configuration
    record is exactly the one-element ordered sequence ["colon_fence"],
    on every read. -/
theorem myst_enable_extensions_exact (i : Nat) :
    (readConfig i).map BuildConfiguration.myst_enable_extensions =
      some ["colon_fence"] := rfl

/-- C10: The template-search-paths field of the Build Configuration
    record is exactly the one-element sequence ["_templates"], and the
    static-asset-paths field is exactly the one-element sequence
    ["_static"], on every read. -/
theorem paths_exact (i : Nat) :
    (readConfig i).map BuildConfiguration.templates_path =
      some ["_templates"] ∧
    (readConfig i).map BuildConfiguration.html_static_path =
      some ["_static"] :=
  ⟨rfl, rfl⟩
